import Mathlib

/-!
Verification of the V2X telemetry-collection coordination core
(collect_data.py, traffic_generator.py, utils.py, v2x_env.py) against its
natural-language specification.  Python floats are modeled as rationals,
Python ints as Int/Nat, fallible computations as Except, and the aliasing
behaviour of Python dict/list values as an explicit reference heap.
-/

namespace V2X

set_option maxRecDepth 2000

/-! ## Configuration constants (collect_data.py 39-43, traffic_generator.py 22) -/

def SAMPLE_INTERVAL : ℚ := 1/2

def N_HOSTS : Nat := 14

def CORE_SWITCH_NAME : String := "s_core"

def BASE_PORT : Nat := 5000

/-! ## Zone mapping and scenario-label normalization (collect_data.py 57-76) -/

/-- get_zone (collect_data.py 57-63): maps a host id to its zone name. -/
def get_zone (node_id : Nat) : String :=
  if node_id ≤ 4 then "highway"
  else if node_id ≤ 10 then "urban"
  else "suburb"

/-- normalize_scenario_name (collect_data.py 66-76).  The Python guard
`if not raw_name` is true for None and for the empty string. -/
def normalize_scenario_name (raw_name : Option String) : String :=
  match raw_name with
  | none => "idle"
  | some s =>
    if s = "" then "idle"
    else if s.startsWith "A-Highway" then "A-Highway"
    else if s.startsWith "B-Urban" then "B-Urban"
    else if s.startsWith "C-Suburb" then "C-Suburb"
    else "idle"

/-! ## Delta/rate engine (collect_data.py 213-216, 235-238, 270-292) -/

/-- The clamp `if x < 0: x = 0` applied to an integer quantity. -/
def clamp0_int (x : ℤ) : ℤ := if x < 0 then 0 else x

/-- The clamp `if x < 0.0: x = 0.0` applied to a float quantity. -/
def clamp0_rat (x : ℚ) : ℚ := if x < 0 then 0 else x

/-- collect_data.py 213-216: `dt = loop_start - last_loop_time; if dt <= 0.0:
dt = SAMPLE_INTERVAL`.  The dt actually used by the tick. -/
def effective_dt (dt_raw : ℚ) : ℚ :=
  if dt_raw ≤ 0 then SAMPLE_INTERVAL else dt_raw

/-- collect_data.py 273-287, one direction (tx or rx): the byte-counter
difference is clamped at 0, converted to Mbps with the given dt, and the
result clamped at 0 again. -/
def loop_throughput_at (prev curr : Nat) (dt : ℚ) : ℚ :=
  clamp0_rat (((clamp0_int ((curr : ℤ) - (prev : ℤ))) : ℚ) * 8 / (dt * 1000000))

/-- The sampling loop's full throughput computation: the dt substitution of
lines 213-216 followed by the rate computation of lines 273-287. -/
def loop_throughput (prev curr : Nat) (dt_raw : ℚ) : ℚ :=
  loop_throughput_at prev curr (effective_dt dt_raw)

/-- Rate function written from the specification text (spec 4.5), for
comparison with the code: 0 when prev_bytes is absent or dt ≤ 0, 0 on a
counter reset, otherwise 8 × (curr − prev) / (dt × 1e6). -/
def spec_rate_mbps (prev_bytes : Option Nat) (curr_bytes : Nat) (dt : ℚ) : ℚ :=
  match prev_bytes with
  | none => 0
  | some p =>
    if dt ≤ 0 then 0
    else if curr_bytes < p then 0
    else 8 * ((curr_bytes : ℚ) - (p : ℚ)) / (dt * 1000000)

/-- collect_data.py 235-238 and 289-292: the drop-count delta with the
reset clamp, shared by the host queue and the uplink queue paths. -/
def drop_delta (prev_total curr_total : ℤ) : ℤ :=
  clamp0_int (curr_total - prev_total)

/-! ## Activity labeling (collect_data.py 249-260) -/

/-- The scenario/is_active pair written into one record. -/
structure RecordLabel where
  scenario : String
  is_active : Nat
deriving Repr, DecidableEq

/-- collect_data.py 254-260: `if host_name in active_nodes and
norm_scenario != "idle"` the record is labeled with the normalized scenario
and is_active = 1, otherwise with "idle" and is_active = 0. -/
def label_endpoint (host_name : String) (active_nodes : List String)
    (norm_scenario : String) : RecordLabel :=
  if host_name ∈ active_nodes ∧ norm_scenario ≠ "idle" then
    ⟨norm_scenario, 1⟩
  else
    ⟨"idle", 0⟩

/-! ## The rtt_ms cell of a record (utils.py 61-119, collect_data.py 262-308)

Python is dynamically typed, so the value bound to rtt_ms is modeled by a
small universe of Python runtime values; the built-in round is total on
numbers and raises TypeError on anything else. -/

/-- A Python runtime value as it flows through the rtt_ms computation. -/
inductive PyVal where
  | pyNone : PyVal
  | pyFloat : ℚ → PyVal
  | pyInt : ℤ → PyVal
  | pyPair : PyVal → PyVal → PyVal
deriving Repr, DecidableEq

/-- Round-half-to-even on rationals, as the Python built-in rounds an ideal
decimal value. -/
def round_half_even (x : ℚ) : ℤ :=
  let f := Int.floor x
  let frac := x - (f : ℚ)
  if frac < 1/2 then f
  else if 1/2 < frac then f + 1
  else if f % 2 = 0 then f else f + 1

/-- Python round(float, ndigits) on the ideal decimal value. -/
def py_round_float (x : ℚ) (ndigits : Nat) : ℚ :=
  ((round_half_even (x * (10 : ℚ) ^ ndigits) : ℚ)) / (10 : ℚ) ^ ndigits

/-- Python round(value, ndigits): defined on numbers, a TypeError on None
and on tuples, which define no rounding method. -/
def pyRound (v : PyVal) (ndigits : Nat) : Except String PyVal :=
  match v with
  | .pyFloat q => .ok (.pyFloat (py_round_float q ndigits))
  | .pyInt n => .ok (.pyInt n)
  | .pyNone => .error "TypeError: type NoneType defines no rounding method"
  | .pyPair _ _ => .error "TypeError: type tuple defines no rounding method"

/-- ping_once (utils.py 81-119): returns the pair (rtt_ms, loss_flag) where
rtt_ms is the parsed RTT or None on timeout/failure, and loss_flag is 0 on a
reply and 1 otherwise.  The argument is the outcome of parse_ping_rtt on the
probe output. -/
def ping_once (parsed_rtt : Option ℚ) : PyVal :=
  match parsed_rtt with
  | none => .pyPair .pyNone (.pyInt 1)
  | some r => .pyPair (.pyFloat r) (.pyInt 0)

/-- collect_data.py 263 and 308: the loop binds the whole return value of
ping_once to rtt_ms and then computes round(rtt_ms, 1) for the CSV row. -/
def emit_rtt_cell (parsed_rtt : Option ℚ) : Except String PyVal :=
  pyRound (ping_once parsed_rtt) 1

/-! ## Shared traffic state (traffic_generator.py 25-30, 46-56, 365-373) -/

/-- The traffic_status dict viewed as a record of its four entries, with the
active_nodes entry taken by value. -/
structure TrafficStatus where
  running : Bool
  current_scenario : Option String
  active_nodes : List String
  cycle_count : Nat
deriving Repr, DecidableEq

/-- traffic_generator.py 25-30: the module-level initial traffic_status. -/
def traffic_status_init : TrafficStatus :=
  { running := false
    current_scenario := none
    active_nodes := []
    cycle_count := 0 }

/-- The finally block of run_traffic_scenario (traffic_generator.py 368-372):
running cleared, scenario set to "stopped", active set emptied. -/
def scheduler_finalize (s : TrafficStatus) : TrafficStatus :=
  { s with running := false
           current_scenario := some "stopped"
           active_nodes := [] }

/-- run_traffic_scenario's outer try/except/finally (traffic_generator.py
200, 365-373).  The loop body either returns normally with the state it
left, or raises at some point with the state at that point; the except
clause catches and logs, the finally clause applies the terminal update,
and no exception escapes. -/
def run_traffic_scenario_exit
    (body : Except (String × TrafficStatus) TrafficStatus) :
    Except String TrafficStatus :=
  match body with
  | .ok s => .ok (scheduler_finalize s)
  | .error e => .ok (scheduler_finalize e.2)

/-! ## get_traffic_status and dict aliasing (traffic_generator.py 46-56)

Python dicts hold references: the active_nodes entry of traffic_status is a
reference to a heap-allocated mutable list.  dict.copy() copies the key
bindings only, so the copy holds the same list reference. -/

/-- The traffic_status dict with its active_nodes entry as a heap reference. -/
structure StatusDict where
  running : Bool
  current_scenario : Option String
  active_nodes_ref : Nat
  cycle_count : Nat
deriving Repr, DecidableEq

/-- The heap of allocated Python lists, addressed by reference. -/
structure ListHeap where
  contents : Nat → List String

/-- Python dict.copy(): a new top-level dict with the same key bindings; the
active_nodes binding is the same list reference, nothing is allocated. -/
def dict_copy (d : StatusDict) : StatusDict :=
  { running := d.running
    current_scenario := d.current_scenario
    active_nodes_ref := d.active_nodes_ref
    cycle_count := d.cycle_count }

/-- get_traffic_status (traffic_generator.py 46-49): under the status lock,
return traffic_status.copy(). -/
def get_traffic_status (d : StatusDict) : StatusDict :=
  dict_copy d

/-- Reading the active_nodes list a dict refers to. -/
def read_active (h : ListHeap) (d : StatusDict) : List String :=
  h.contents d.active_nodes_ref

/-- In-place mutation of the list a dict's active_nodes entry refers to,
e.g. snapshot["active_nodes"].append(x) on a returned snapshot. -/
def append_active (h : ListHeap) (d : StatusDict) (x : String) : ListHeap :=
  ⟨fun r => if r = d.active_nodes_ref then h.contents r ++ [x] else h.contents r⟩

/-! ## Bottleneck resolution (collect_data.py 79-91) -/

/-- One side of a link: the interface and the name of the node it is on. -/
structure NetIntf where
  name : String
  node_name : String
deriving Repr, DecidableEq

/-- A link between two interfaces. -/
structure NetLink where
  intf1 : NetIntf
  intf2 : NetIntf
deriving Repr, DecidableEq

/-- An entry of switch_node.intfList(): the interface name on the switch and
the link it belongs to, if any. -/
structure SwitchIntf where
  name : String
  link : Option NetLink
deriving Repr, DecidableEq

/-- find_uplink_interface (collect_data.py 79-91): walk the switch's
interface list; for an interface with a link whose either endpoint node is
core_name, return that interface's name; otherwise None. -/
def find_uplink_interface : List SwitchIntf → String → Option String
  | [], _ => none
  | i :: rest, core_name =>
    match i.link with
    | some l =>
      if l.intf1.node_name == core_name || l.intf2.node_name == core_name then
        some i.name
      else
        find_uplink_interface rest core_name
    | none => find_uplink_interface rest core_name

/-- The condition of collect_data.py 89 as a predicate on one interface:
the interface has a link and either endpoint of that link is the core node. -/
def links_to_core (i : SwitchIntf) (core_name : String) : Bool :=
  match i.link with
  | some l => l.intf1.node_name == core_name || l.intf2.node_name == core_name
  | none => false

/-! ## Scenario scheduler (traffic_generator.py 124-363)

The scheduler draws every phase parameter from Python's seeded PRNG, which
is a deterministic generator: we model it by an explicit deterministic
next-state function (a 64-bit linear congruential step standing in for the
Mersenne Twister; the claims depend on determinism, not on the particular
stream).  Wall-clock time is modeled by its ideal value: the accumulation
of the sleep durations the scheduler itself requests.  The results of the
dispatched iperf commands come from an environment parameter; the code
ignores them (traffic_generator.py 238, 278, 308, 356), and they are kept
in the run's dispatch log. -/

/-- The state of the deterministic PRNG behind the random module. -/
structure Rng where
  state : Nat
deriving Repr, DecidableEq

/-- One deterministic PRNG step. -/
def rngNext (s : Nat) : Nat :=
  (s * 6364136223846793005 + 1442695040888963407) % 2 ^ 64

/-- Draw 53 output bits and advance the generator. -/
def randBits (r : Rng) : Nat × Rng :=
  let s := rngNext r.state
  (s / 2 ^ 11 % 2 ^ 53, ⟨s⟩)

/-- random.uniform(a, b): a + (b − a) × u with u uniform in [0, 1). -/
def randUniform (a b : ℚ) (r : Rng) : ℚ × Rng :=
  let (n, r1) := randBits r
  (a + (b - a) * ((n : ℚ) / 2 ^ 53), r1)

/-- random.randint(a, b): a uniform integer in [a, b]. -/
def randInt (a b : Nat) (r : Rng) : Nat × Rng :=
  let (n, r1) := randBits r
  (a + n % (b - a + 1), r1)

/-- random.sample(pop, k): k distinct elements, drawn by repeatedly picking
an index into the remaining population. -/
def randSample : List String → Nat → Rng → List String × Rng
  | _, 0, r => ([], r)
  | [], _ + 1, r => ([], r)
  | pop@(_ :: _), k + 1, r =>
    let (i, r1) := randInt 0 (pop.length - 1) r
    let x := pop.getD i ""
    let (xs, r2) := randSample (pop.take i ++ pop.drop (i + 1)) k r1
    (x :: xs, r2)

/-! Scenario parameter ranges (traffic_generator.py 124-155). -/

def HW_NODES : List String := ["h1", "h2", "h3", "h4"]

def HW_BW_MIN : ℚ := 60
def HW_BW_MAX : ℚ := 100
def HW_DUR_MIN : ℚ := 4
def HW_DUR_MAX : ℚ := 10
def HW_GAP_MIN : ℚ := 2
def HW_GAP_MAX : ℚ := 6

def URBAN_CENTER : String := "h6"

def URBAN_NEIGHBORS : List String := ["h5", "h7", "h9", "h10"]

def URB_CENTER_BW_MIN : ℚ := 30
def URB_CENTER_BW_MAX : ℚ := 80
def URB_CENTER_DUR_MIN : ℚ := 6
def URB_CENTER_DUR_MAX : ℚ := 15
def URB_NEI_BW_MIN : ℚ := 10
def URB_NEI_BW_MAX : ℚ := 50
def URB_NEI_DUR_MIN : ℚ := 4
def URB_NEI_DUR_MAX : ℚ := 12
def URB_DIFFUSE_DELAY_MIN : ℚ := 1
def URB_DIFFUSE_DELAY_MAX : ℚ := 3

def SUBURB_NODES : List String := ["h11", "h12", "h13", "h14"]

def SUB_BW_MIN : ℚ := 10
def SUB_BW_MAX : ℚ := 60
def SUB_DUR_MIN : ℚ := 3
def SUB_DUR_MAX : ℚ := 10

/-- One emitted flow: the scenario phase label published with it, the
endpoint, and the drawn bandwidth (Mbps) and duration (seconds). -/
structure Draw where
  phase : String
  endpoint : String
  bandwidth : ℚ
  duration : ℚ
deriving Repr, DecidableEq

/-- The scheduler's run state: PRNG, ideal elapsed time, the flows drawn so
far, and the log of dispatched commands with their channel results. -/
structure SchedState where
  rng : Rng
  elapsed : ℚ
  draws : List Draw
  dispatched : List (String × Bool)
deriving Repr, DecidableEq

/-- The command-channel-independent part of a scheduler state: generator,
ideal elapsed time and the draws; used to state that the dispatch log is
the only part of the state the environment can influence. -/
def SchedState.core (st : SchedState) : Rng × ℚ × List Draw :=
  (st.rng, st.elapsed, st.draws)

/-- The loop's time-budget test (traffic_generator.py 207 etc.):
elapsed > duration_limit, with no limit meaning never. -/
def over_limit (limit : Option ℚ) (elapsed : ℚ) : Bool :=
  match limit with
  | none => false
  | some l => decide (l < elapsed)

/-- _host_index_from_name (traffic_generator.py 59-70): the integer index
of a name of the form h followed by digits. -/
def host_index_from_name (name : String) : Option Nat :=
  if name.startsWith "h" then (name.drop 1).toNat?
  else none

/-- start_iperf_flow (traffic_generator.py 73-113): returns False on a
missing host or an unparsable name, otherwise dispatches the flow command
and reports the command channel's outcome (env). -/
def start_iperf_flow (env : String → Bool) (host : Option String) : Bool :=
  match host with
  | none => false
  | some name =>
    match host_index_from_name name with
    | none => false
    | some _ => env name

/-- Phase A inner loop (traffic_generator.py 217-241): per highway node,
check the budget, skip a missing host, draw bandwidth, duration and gap,
dispatch the flow, and sleep for the gap. -/
def run_highway_chain (limit : Option ℚ) (hosts : List String)
    (env : String → Bool) : List String → SchedState → SchedState
  | [], st => st
  | n :: rest, st =>
    if over_limit limit st.elapsed then st
    else if n ∈ hosts then
      let u1 := randUniform HW_BW_MIN HW_BW_MAX st.rng
      let u2 := randUniform HW_DUR_MIN HW_DUR_MAX u1.2
      let u3 := randUniform HW_GAP_MIN HW_GAP_MAX u2.2
      let ok := start_iperf_flow env (some n)
      run_highway_chain limit hosts env rest
        { rng := u3.2
          elapsed := st.elapsed + u3.1
          draws := st.draws ++ [⟨"A-Highway", n, u1.1, u2.1⟩]
          dispatched := st.dispatched ++ [(n, ok)] }
    else run_highway_chain limit hosts env rest st

/-- Phase A (traffic_generator.py 214-245): the chain followed by the fixed
2-second settle sleep. -/
def scenarioA (limit : Option ℚ) (hosts : List String) (env : String → Bool)
    (st : SchedState) : SchedState :=
  let st1 := run_highway_chain limit hosts env HW_NODES st
  { st1 with elapsed := st1.elapsed + 2 }

/-- The wait for the longest dispatched flow plus a one-second grace
(traffic_generator.py 311-312 and 358-359): time passes only when some
flow was started. -/
def wait_longest (p : SchedState × ℚ) : SchedState :=
  if 0 < p.2 then { p.1 with elapsed := p.1.elapsed + (p.2 + 1) } else p.1

/-- Phase B center burst (traffic_generator.py 263-278): if the center host
is valid, draw its bandwidth and duration, dispatch the flow and track the
running maximum duration. -/
def scenarioB_center (hosts : List String) (env : String → Bool)
    (st : SchedState) : SchedState × ℚ :=
  if URBAN_CENTER ∈ hosts then
    let u1 := randUniform URB_CENTER_BW_MIN URB_CENTER_BW_MAX st.rng
    let u2 := randUniform URB_CENTER_DUR_MIN URB_CENTER_DUR_MAX u1.2
    let ok := start_iperf_flow env (some URBAN_CENTER)
    ({ st with
        rng := u2.2
        draws := st.draws ++ [⟨"B-Urban", URBAN_CENTER, u1.1, u2.1⟩]
        dispatched := st.dispatched ++ [(URBAN_CENTER, ok)] },
      max 0 u2.1)
  else (st, 0)

/-- Phase B neighbor loop (traffic_generator.py 291-308): per target, skip a
missing host, draw bandwidth and duration, track the running maximum
duration, dispatch the flow. -/
def run_urban_neighbors (hosts : List String) (env : String → Bool) :
    List String → SchedState → ℚ → SchedState × ℚ
  | [], st, m => (st, m)
  | n :: rest, st, m =>
    if n ∈ hosts then
      let u1 := randUniform URB_NEI_BW_MIN URB_NEI_BW_MAX st.rng
      let u2 := randUniform URB_NEI_DUR_MIN URB_NEI_DUR_MAX u1.2
      let ok := start_iperf_flow env (some n)
      run_urban_neighbors hosts env rest
        { rng := u2.2
          elapsed := st.elapsed
          draws := st.draws ++ [⟨"B-Urban", n, u1.1, u2.1⟩]
          dispatched := st.dispatched ++ [(n, ok)] } (max m u2.1)
    else run_urban_neighbors hosts env rest st m

/-- Phase B diffusion (traffic_generator.py 280-308): the randomized delay
before diffusion, then a random non-empty subset of the valid neighbors
each start an independently randomized flow. -/
def scenarioB_spread (hosts : List String) (env : String → Bool)
    (p1 : SchedState × ℚ) : SchedState × ℚ :=
  let u3 := randUniform URB_DIFFUSE_DELAY_MIN URB_DIFFUSE_DELAY_MAX p1.1.rng
  let st2 := { p1.1 with rng := u3.2, elapsed := p1.1.elapsed + u3.1 }
  let cands := URBAN_NEIGHBORS.filter (fun n => n ∈ hosts)
  if 0 < cands.length then
    let k := randInt 1 cands.length st2.rng
    let ts := randSample cands k.1 k.2
    run_urban_neighbors hosts env ts.1 { st2 with rng := ts.2 } p1.2
  else (st2, p1.2)

/-- End of a phase: wait out the longest dispatched flow and sleep the
fixed settle period (2 seconds after phase B, 3 after phase C). -/
def scenario_settle (q : ℚ) (p2 : SchedState × ℚ) : SchedState :=
  let st4 := wait_longest p2
  { st4 with elapsed := st4.elapsed + q }

/-- Phase B (traffic_generator.py 250-316): center burst, diffusion to
neighbors, the wait for the longest flow, and the 2-second settle sleep. -/
def scenarioB (hosts : List String) (env : String → Bool)
    (st : SchedState) : SchedState :=
  scenario_settle 2 (scenarioB_spread hosts env (scenarioB_center hosts env st))

/-- Phase C target loop (traffic_generator.py 342-356). -/
def run_suburb_targets (hosts : List String) (env : String → Bool) :
    List String → SchedState → ℚ → SchedState × ℚ
  | [], st, m => (st, m)
  | n :: rest, st, m =>
    if n ∈ hosts then
      let u1 := randUniform SUB_BW_MIN SUB_BW_MAX st.rng
      let u2 := randUniform SUB_DUR_MIN SUB_DUR_MAX u1.2
      let ok := start_iperf_flow env (some n)
      run_suburb_targets hosts env rest
        { rng := u2.2
          elapsed := st.elapsed
          draws := st.draws ++ [⟨"C-Suburb", n, u1.1, u2.1⟩]
          dispatched := st.dispatched ++ [(n, ok)] } (max m u2.1)
    else run_suburb_targets hosts env rest st m

/-- Phase C target pick (traffic_generator.py 331-356): 1 to 3 of the
valid suburb hosts, each with an independently randomized flow; yields the
unchanged state when no suburb host is valid. -/
def scenarioC_pick (hosts : List String) (env : String → Bool)
    (st : SchedState) : SchedState × ℚ :=
  let subs := SUBURB_NODES.filter (fun n => n ∈ hosts)
  if 0 < subs.length then
    let k := randInt 1 (min 3 subs.length) st.rng
    let ts := randSample subs k.1 k.2
    run_suburb_targets hosts env ts.1 { st with rng := ts.2 } 0
  else (st, 0)

/-- Phase C (traffic_generator.py 321-363): the suburb picks, the wait for
the longest flow, and the 3-second settle sleep. -/
def scenarioC (hosts : List String) (env : String → Bool)
    (st : SchedState) : SchedState :=
  scenario_settle 3 (scenarioC_pick hosts env st)

/-- The scheduler's while loop (traffic_generator.py 201-363): budget check
at the top of the cycle and between phases, then phases A, B, C in order;
fuel bounds the number of cycles unrolled. -/
def scheduler_loop (limit : Option ℚ) (hosts : List String)
    (env : String → Bool) : Nat → SchedState → SchedState
  | 0, st => st
  | fuel + 1, st =>
    if over_limit limit st.elapsed then st
    else
      let st1 := scenarioA limit hosts env st
      if over_limit limit st1.elapsed then st1
      else
        let st2 := scenarioB hosts env st1
        if over_limit limit st2.elapsed then st2
        else
          let st3 := scenarioC hosts env st2
          scheduler_loop limit hosts env fuel st3

/-- run_traffic_scenario's sequence of (phase, endpoint, bandwidth,
duration) tuples, as a function of the seed, the valid host set, the
duration limit, the cycle fuel and the command-channel environment. -/
def run_traffic_scenario_draws (seed : Nat) (hosts : List String)
    (limit : Option ℚ) (fuel : Nat) (env : String → Bool) : List Draw :=
  (scheduler_loop limit hosts env fuel
    { rng := ⟨seed⟩, elapsed := 0, draws := [], dispatched := [] }).draws

/-! ## Helper lemmas -/

theorem effective_dt_pos (dt_raw : ℚ) : 0 < effective_dt dt_raw := by
  unfold effective_dt
  by_cases h : dt_raw ≤ 0
  · rw [if_pos h]
    norm_num [SAMPLE_INTERVAL]
  · rw [if_neg h]
    exact not_le.mp h

theorem clamp0_rat_nonneg (x : ℚ) : 0 ≤ clamp0_rat x := by
  unfold clamp0_rat
  by_cases h : x < 0
  · rw [if_pos h]
  · rw [if_neg h]
    exact not_lt.mp h

/-! ## Claim theorems -/

/-- C4: the interval length dt used by the sampling loop and written into
each SampleRecord is strictly positive: a raw monotonic-clock difference
that is zero or negative (including the degenerate first tick) is replaced
by SAMPLE_INTERVAL = 0.5, and any other raw difference is itself positive. -/
theorem c4_interval_dt_pos (dt_raw : ℚ) : 0 < effective_dt dt_raw :=
  effective_dt_pos dt_raw

/-- C10: the drop-delta computation applied to both the host queue and the
uplink queue equals max(0, curr_total − prev_total); in particular
drop_delta 100 80 = 0 and drop_delta 100 140 = 40. -/
theorem c10_drop_delta (prev_total curr_total : ℤ) :
    drop_delta prev_total curr_total = max 0 (curr_total - prev_total) ∧
    drop_delta 100 80 = 0 ∧
    drop_delta 100 140 = 40 := by
  refine ⟨?_, by decide, by decide⟩
  unfold drop_delta clamp0_int
  rcases lt_or_le (curr_total - prev_total) 0 with h | h
  · rw [if_pos h, max_eq_left h.le]
  · rw [if_neg (not_lt.mpr h), max_eq_right h]

/-- C2: an endpoint's record carries is_active = 1 exactly when the host is
a member of the snapshot's active set and the normalized scenario label is
not "idle"; in every other case the record carries is_active = 0 and the
scenario "idle", whatever the raw active set holds. -/
theorem c2_activity_label (host_name : String) (active_nodes : List String)
    (raw : Option String) :
    ((label_endpoint host_name active_nodes (normalize_scenario_name raw)).is_active = 1
      ↔ host_name ∈ active_nodes ∧ normalize_scenario_name raw ≠ "idle") ∧
    ((label_endpoint host_name active_nodes (normalize_scenario_name raw)).is_active = 0
      ↔ ¬(host_name ∈ active_nodes ∧ normalize_scenario_name raw ≠ "idle")) ∧
    (¬(host_name ∈ active_nodes ∧ normalize_scenario_name raw ≠ "idle") →
      label_endpoint host_name active_nodes (normalize_scenario_name raw)
        = ⟨"idle", 0⟩) := by
  by_cases h : host_name ∈ active_nodes ∧ normalize_scenario_name raw ≠ "idle"
  · simp [label_endpoint, h]
  · simp [label_endpoint, h]

/-- C3: at every tick and for every probe outcome, the code's rtt_ms cell
computation fails with a TypeError: ping_once returns the pair
(rtt, loss_flag), the loop binds the whole pair to rtt_ms, and round
rejects a tuple — so the record is never emitted with a numeric or null
rtt_ms, on probe success or failure alike. -/
theorem c3_rtt_round_type_error (parsed_rtt : Option ℚ) :
    emit_rtt_cell parsed_rtt
      = Except.error "TypeError: type tuple defines no rounding method" := by
  cases parsed_rtt <;> rfl

/-- C5: whenever the scheduler loop exits — normally or through an
exception raised anywhere inside a scenario phase — the shared traffic
state is left with scenario "stopped", an empty active set and running
false, and no exception propagates out of run_traffic_scenario. -/
theorem c5_terminal_state
    (body : Except (String × TrafficStatus) TrafficStatus) :
    ∃ s, run_traffic_scenario_exit body = Except.ok s ∧
      s.current_scenario = some "stopped" ∧
      s.active_nodes = [] ∧
      s.running = false := by
  cases body with
  | ok s => exact ⟨scheduler_finalize s, rfl, rfl, rfl, rfl⟩
  | error e => exact ⟨scheduler_finalize e.2, rfl, rfl, rfl, rfl⟩

/-- C6 counterexample: get_traffic_status does not return a deep copy.  With
the internal state holding list reference 0 whose contents are [h6],
appending h1 to the active_nodes list of a returned snapshot changes what
the internal state reads from [h6] to [h6, h1]. -/
theorem c6_counterexample :
    read_active (⟨fun r => if r = 0 then ["h6"] else []⟩ : ListHeap)
        (⟨true, some "B-Urban", 0, 1⟩ : StatusDict) = ["h6"] ∧
    read_active
        (append_active ⟨fun r => if r = 0 then ["h6"] else []⟩
          (get_traffic_status ⟨true, some "B-Urban", 0, 1⟩) "h1")
        (⟨true, some "B-Urban", 0, 1⟩ : StatusDict) = ["h6", "h1"] := by
  constructor <;> rfl

/-- C6 amended: get_traffic_status returns a shallow copy — a new top-level
dict with the same scalar entries whose active_nodes entry is the same list
reference as the internal state's — so an in-place mutation of the
snapshot's list is a mutation of the internal state's list. -/
theorem c6_amended_shallow_copy (h : ListHeap) (d : StatusDict) (x : String) :
    (get_traffic_status d).active_nodes_ref = d.active_nodes_ref ∧
    (get_traffic_status d).running = d.running ∧
    (get_traffic_status d).current_scenario = d.current_scenario ∧
    (get_traffic_status d).cycle_count = d.cycle_count ∧
    read_active (append_active h (get_traffic_status d) x) d
      = read_active h d ++ [x] := by
  refine ⟨rfl, rfl, rfl, rfl, ?_⟩
  unfold read_active append_active get_traffic_status dict_copy
  simp

/-- C7 counterexample: before the scheduler performs any update, the shared
traffic state's scenario field is None, not the string "idle". -/
theorem c7_counterexample :
    traffic_status_init.current_scenario = none ∧
    traffic_status_init.current_scenario ≠ some "idle" := by
  exact ⟨rfl, by simp [traffic_status_init]⟩

/-- C7 amended: before the scheduler performs any update, the shared
traffic state has running false, an empty active set, cycle count 0, and a
raw scenario field of None — which the sampling loop's label normalizer
maps to "idle". -/
theorem c7_amended_initial_state :
    traffic_status_init.running = false ∧
    traffic_status_init.active_nodes = [] ∧
    traffic_status_init.cycle_count = 0 ∧
    traffic_status_init.current_scenario = none ∧
    normalize_scenario_name traffic_status_init.current_scenario = "idle" :=
  ⟨rfl, rfl, rfl, rfl, rfl⟩

/-- C1 counterexample: the loop's throughput computation differs from the
spec's rate function at dt = 0: with prev = 0, curr = 62500 and dt = 0 the
loop substitutes dt = 0.5 and yields 1 Mbps, while the spec rate function
yields 0 for dt ≤ 0. -/
theorem c1_counterexample :
    loop_throughput 0 62500 0 ≠ spec_rate_mbps (some 0) 62500 0 := by
  norm_num [loop_throughput, loop_throughput_at, effective_dt, SAMPLE_INTERVAL,
    clamp0_int, clamp0_rat, spec_rate_mbps]

/-- C1 amended: in the sampling loop the previous counter is always present
and a non-positive raw dt is first replaced by SAMPLE_INTERVAL; with that
strictly positive effective dt the loop's throughput equals the spec's rate
function — 0 on a counter reset, otherwise 8 × (curr − prev) / (dt × 1e6) —
and the result is never negative. -/
theorem c1_amended_throughput (prev curr : Nat) (dt_raw : ℚ) :
    loop_throughput prev curr dt_raw
      = spec_rate_mbps (some prev) curr (effective_dt dt_raw) ∧
    0 < effective_dt dt_raw ∧
    0 ≤ loop_throughput prev curr dt_raw := by
  have hdt := effective_dt_pos dt_raw
  refine ⟨?_, hdt, clamp0_rat_nonneg _⟩
  simp only [loop_throughput, loop_throughput_at, spec_rate_mbps, clamp0_int,
    clamp0_rat]
  rw [if_neg (not_le.mpr hdt)]
  by_cases hc : curr < prev
  · have h1 : ((curr : ℤ) - (prev : ℤ)) < 0 := by omega
    rw [if_pos h1, if_pos hc]
    simp
  · have h1 : ¬ ((curr : ℤ) - (prev : ℤ)) < 0 := by omega
    rw [if_neg h1, if_neg hc]
    have hpos : (0 : ℚ) < effective_dt dt_raw * 1000000 := by positivity
    have hnum : (0 : ℚ) ≤ (((curr : ℤ) - (prev : ℤ) : ℤ) : ℚ) := by
      exact_mod_cast not_lt.mp h1
    have hX : (0 : ℚ) ≤ (((curr : ℤ) - (prev : ℤ) : ℤ) : ℚ) * 8
        / (effective_dt dt_raw * 1000000) := by
      apply div_nonneg (by linarith) hpos.le
    rw [if_neg (not_lt.mpr hX)]
    push_cast
    ring

/-- C8: the bottleneck resolver returns the interface name of the first
entry of the switch's interface list whose link has the core node as one of
its two endpoints, and returns None exactly when no interface's link does. -/
theorem c8_find_uplink (intfs : List SwitchIntf) (core_name : String) :
    find_uplink_interface intfs core_name
      = (intfs.find? (fun i => links_to_core i core_name)).map SwitchIntf.name ∧
    (find_uplink_interface intfs core_name = none
      ↔ intfs.all (fun i => !links_to_core i core_name) = true) := by
  have key : find_uplink_interface intfs core_name
      = (intfs.find? (fun i => links_to_core i core_name)).map SwitchIntf.name := by
    induction intfs with
    | nil => rfl
    | cons i rest ih =>
      cases hl : i.link with
      | none =>
        have hp : links_to_core i core_name = false := by
          simp [links_to_core, hl]
        simp [find_uplink_interface, hl, List.find?_cons, hp, ih]
      | some l =>
        have hp : links_to_core i core_name
            = (l.intf1.node_name == core_name || l.intf2.node_name == core_name) := by
          simp [links_to_core, hl]
        cases hc : (l.intf1.node_name == core_name || l.intf2.node_name == core_name) with
        | true => simp [find_uplink_interface, hl, List.find?_cons, hp, hc]
        | false => simp [find_uplink_interface, hl, List.find?_cons, hp, hc, ih]
  refine ⟨key, ?_⟩
  rw [key]
  simp [Option.map_eq_none', List.find?_eq_none, List.all_eq_true]

/-! ## C9: the scheduler draw sequence is independent of the command
channel and a function of seed, hosts and configuration alone.  Phase by
phase: two runs whose states agree on their core (rng, elapsed time,
draws) keep agreeing, whatever each run's command channel answered. -/

theorem core_parts (s t : SchedState) (h : s.core = t.core) :
    s.rng = t.rng ∧ s.elapsed = t.elapsed ∧ s.draws = t.draws :=
  ⟨congrArg Prod.fst h, congrArg (fun p => p.2.1) h,
    congrArg (fun p => p.2.2) h⟩

theorem core_mk (s t : SchedState) (hr : s.rng = t.rng)
    (he : s.elapsed = t.elapsed) (hd : s.draws = t.draws) :
    s.core = t.core := by
  unfold SchedState.core
  rw [hr, he, hd]

theorem run_highway_chain_core (limit : Option ℚ) (hosts : List String)
    (env1 env2 : String → Bool) (ns : List String) :
    ∀ s t : SchedState, s.core = t.core →
      (run_highway_chain limit hosts env1 ns s).core
        = (run_highway_chain limit hosts env2 ns t).core := by
  induction ns with
  | nil =>
    intro s t h
    exact h
  | cons n rest ih =>
    intro s t h
    obtain ⟨hr, he, hd⟩ := core_parts s t h
    simp only [run_highway_chain]
    rw [← he]
    by_cases ho : over_limit limit s.elapsed
    · simp only [if_pos ho]
      exact h
    · simp only [if_neg ho]
      by_cases hm : n ∈ hosts
      · simp only [if_pos hm]
        rw [hr, hd]
        exact ih _ _ rfl
      · simp only [if_neg hm]
        exact ih s t h

theorem run_urban_neighbors_core (hosts : List String)
    (env1 env2 : String → Bool) (ts : List String) :
    ∀ (s t : SchedState) (m : ℚ), s.core = t.core →
      (run_urban_neighbors hosts env1 ts s m).1.core
          = (run_urban_neighbors hosts env2 ts t m).1.core ∧
      (run_urban_neighbors hosts env1 ts s m).2
          = (run_urban_neighbors hosts env2 ts t m).2 := by
  induction ts with
  | nil =>
    intro s t m h
    exact ⟨h, rfl⟩
  | cons n rest ih =>
    intro s t m h
    obtain ⟨hr, he, hd⟩ := core_parts s t h
    simp only [run_urban_neighbors]
    by_cases hm : n ∈ hosts
    · simp only [if_pos hm]
      rw [hr, he, hd]
      exact ih _ _ _ rfl
    · simp only [if_neg hm]
      exact ih s t m h

theorem run_suburb_targets_core (hosts : List String)
    (env1 env2 : String → Bool) (ts : List String) :
    ∀ (s t : SchedState) (m : ℚ), s.core = t.core →
      (run_suburb_targets hosts env1 ts s m).1.core
          = (run_suburb_targets hosts env2 ts t m).1.core ∧
      (run_suburb_targets hosts env1 ts s m).2
          = (run_suburb_targets hosts env2 ts t m).2 := by
  induction ts with
  | nil =>
    intro s t m h
    exact ⟨h, rfl⟩
  | cons n rest ih =>
    intro s t m h
    obtain ⟨hr, he, hd⟩ := core_parts s t h
    simp only [run_suburb_targets]
    by_cases hm : n ∈ hosts
    · simp only [if_pos hm]
      rw [hr, he, hd]
      exact ih _ _ _ rfl
    · simp only [if_neg hm]
      exact ih s t m h

theorem scenarioA_core (limit : Option ℚ) (hosts : List String)
    (env1 env2 : String → Bool) (s t : SchedState) (h : s.core = t.core) :
    (scenarioA limit hosts env1 s).core = (scenarioA limit hosts env2 t).core := by
  have hh := run_highway_chain_core limit hosts env1 env2 HW_NODES s t h
  obtain ⟨hr, he, hd⟩ := core_parts _ _ hh
  simp only [scenarioA]
  exact core_mk _ _ hr (by rw [he]) hd

theorem scenarioB_center_core (hosts : List String)
    (env1 env2 : String → Bool) (s t : SchedState) (h : s.core = t.core) :
    (scenarioB_center hosts env1 s).1.core
        = (scenarioB_center hosts env2 t).1.core ∧
    (scenarioB_center hosts env1 s).2 = (scenarioB_center hosts env2 t).2 := by
  obtain ⟨hr, he, hd⟩ := core_parts s t h
  simp only [scenarioB_center]
  by_cases hc : URBAN_CENTER ∈ hosts
  · simp only [if_pos hc]
    rw [hr, he, hd]
    exact ⟨rfl, rfl⟩
  · simp only [if_neg hc]
    exact ⟨h, trivial⟩

theorem wait_longest_core (a b : SchedState × ℚ)
    (h : a.1.core = b.1.core ∧ a.2 = b.2) :
    (wait_longest a).core = (wait_longest b).core := by
  obtain ⟨h1, h2⟩ := h
  obtain ⟨hr, he, hd⟩ := core_parts _ _ h1
  unfold wait_longest
  rw [h2]
  by_cases hp : 0 < b.2
  · simp only [if_pos hp]
    exact core_mk _ _ hr (by rw [he]) hd
  · simp only [if_neg hp]
    exact h1

theorem scenario_settle_core (q : ℚ) (a b : SchedState × ℚ)
    (h : a.1.core = b.1.core ∧ a.2 = b.2) :
    (scenario_settle q a).core = (scenario_settle q b).core := by
  obtain ⟨wr, we, wd⟩ := core_parts _ _ (wait_longest_core a b h)
  simp only [scenario_settle]
  exact core_mk _ _ wr (by rw [we]) wd

theorem scenarioB_spread_core (hosts : List String)
    (env1 env2 : String → Bool) (p p' : SchedState × ℚ)
    (h : p.1.core = p'.1.core ∧ p.2 = p'.2) :
    (scenarioB_spread hosts env1 p).1.core
        = (scenarioB_spread hosts env2 p').1.core ∧
    (scenarioB_spread hosts env1 p).2 = (scenarioB_spread hosts env2 p').2 := by
  obtain ⟨h1, h2⟩ := h
  obtain ⟨hr, he, hd⟩ := core_parts _ _ h1
  simp only [scenarioB_spread]
  rw [hr, he, hd, h2]
  by_cases hn : 0 < (URBAN_NEIGHBORS.filter (fun n => n ∈ hosts)).length
  · simp only [if_pos hn]
    exact run_urban_neighbors_core hosts env1 env2 _ _ _ _ rfl
  · simp only [if_neg hn]
    exact ⟨rfl, trivial⟩

theorem scenarioC_pick_core (hosts : List String)
    (env1 env2 : String → Bool) (s t : SchedState) (h : s.core = t.core) :
    (scenarioC_pick hosts env1 s).1.core
        = (scenarioC_pick hosts env2 t).1.core ∧
    (scenarioC_pick hosts env1 s).2 = (scenarioC_pick hosts env2 t).2 := by
  obtain ⟨hr, he, hd⟩ := core_parts s t h
  simp only [scenarioC_pick]
  rw [hr, he, hd]
  by_cases hs : 0 < (SUBURB_NODES.filter (fun n => n ∈ hosts)).length
  · simp only [if_pos hs]
    exact run_suburb_targets_core hosts env1 env2 _ _ _ _ rfl
  · simp only [if_neg hs]
    exact ⟨h, trivial⟩

theorem scenarioB_core_agree (hosts : List String) (env1 env2 : String → Bool)
    (s t : SchedState) (h : s.core = t.core) :
    (scenarioB hosts env1 s).core = (scenarioB hosts env2 t).core := by
  simp only [scenarioB]
  exact scenario_settle_core 2 _ _
    (scenarioB_spread_core hosts env1 env2 _ _
      (scenarioB_center_core hosts env1 env2 s t h))

theorem scenarioC_core_agree (hosts : List String) (env1 env2 : String → Bool)
    (s t : SchedState) (h : s.core = t.core) :
    (scenarioC hosts env1 s).core = (scenarioC hosts env2 t).core := by
  simp only [scenarioC]
  exact scenario_settle_core 3 _ _ (scenarioC_pick_core hosts env1 env2 s t h)

theorem scheduler_loop_core (limit : Option ℚ) (hosts : List String)
    (env1 env2 : String → Bool) (fuel : Nat) :
    ∀ s t : SchedState, s.core = t.core →
      (scheduler_loop limit hosts env1 fuel s).core
        = (scheduler_loop limit hosts env2 fuel t).core := by
  induction fuel with
  | zero =>
    intro s t h
    exact h
  | succ fuel ih =>
    intro s t h
    obtain ⟨hr, he, hd⟩ := core_parts s t h
    simp only [scheduler_loop]
    rw [← he]
    by_cases h0 : over_limit limit s.elapsed
    · simp only [if_pos h0]
      exact h
    · simp only [if_neg h0]
      have ha := scenarioA_core limit hosts env1 env2 s t h
      obtain ⟨a1, a2, a3⟩ := core_parts _ _ ha
      rw [← a2]
      by_cases h1 : over_limit limit (scenarioA limit hosts env1 s).elapsed
      · simp only [if_pos h1]
        exact ha
      · simp only [if_neg h1]
        have hb := scenarioB_core_agree hosts env1 env2 _ _ ha
        obtain ⟨b1, b2, b3⟩ := core_parts _ _ hb
        rw [← b2]
        by_cases h2 : over_limit limit
            (scenarioB hosts env1 (scenarioA limit hosts env1 s)).elapsed
        · simp only [if_pos h2]
          exact hb
        · simp only [if_neg h2]
          exact ih _ _ (scenarioC_core_agree hosts env1 env2 _ _ hb)

/-- C9: for a fixed random seed and a fixed set of valid hosts (and a fixed
run configuration), the scheduler's sequence of (phase, endpoint,
bandwidth, duration) tuples is identical across runs: it is a deterministic
function of the seed and hosts, independent of the command channel the runs
observe. -/
theorem c9_seed_determinism (seed : Nat) (hosts : List String)
    (limit : Option ℚ) (fuel : Nat) (env1 env2 : String → Bool) :
    run_traffic_scenario_draws seed hosts limit fuel env1
      = run_traffic_scenario_draws seed hosts limit fuel env2 := by
  unfold run_traffic_scenario_draws
  exact congrArg (fun p => p.2.2)
    (scheduler_loop_core limit hosts env1 env2 fuel _ _ rfl)

end V2X
